import Mathlib

/-!
# Verification of the Shelly fleet scripts

Shallow embedding of the four Python scripts of the `alaub81/shelly`
repository (`shelly-status-check.py`, `shelly-restart.py`,
`shelly-mqtt-config.py`, `shelly-debug-setter.py`) together with proofs
about the embedded operations.

Modelling conventions:
* JSON documents returned by `requests.get(...).json()` are modelled by the
  inductive type `JVal`; JSON numbers are modelled at integer precision
  (the numeric payloads the scripts read — `uptime`, `rssi` — are integers).
* A remote call that raises (transport failure, timeout, non-JSON body) is
  modelled as `none`; a parsed JSON document as `some payload`.
* Python expressions that can raise (`dict.get` on a non-dict, subscripts,
  `int(...)` / `float(...)` conversion) are modelled in `Except Unit` resp.
  `Option`; the scripts' broad `except` handlers become `match` on these.
* Printing is modelled where it is the observable behaviour of a function;
  otherwise it is dropped.
-/

/-- A JSON value as produced by `.json()`.  Numbers are modelled at integer
precision. -/
inductive JVal where
  | null
  | bool (b : Bool)
  | num (n : Int)
  | str (s : String)
  | arr (elems : List JVal)
  | obj (fields : List (String × JVal))

/-- Python truthiness of a JSON value (used by `if ble.get("enable", False)`
style expressions). -/
def pyTruthy : JVal → Bool
  | .null => false
  | .bool b => b
  | .num n => n != 0
  | .str s => !s.isEmpty
  | .arr l => !l.isEmpty
  | .obj fs => !fs.isEmpty

/-- Python `d.get(key, default)`: returns the mapped value or the default on
a dict, raises (`.error`) on any non-dict value. -/
def dictGet (j : JVal) (key : String) (dflt : JVal) : Except Unit JVal :=
  match j with
  | .obj fs => .ok ((fs.lookup key).getD dflt)
  | _ => .error ()

/-- Python subscript `s[key]` with a string key: raises unless `s` is a dict
containing the key. -/
def pySubscript (j : JVal) (key : String) : Except Unit JVal :=
  match j with
  | .obj fs =>
    match fs.lookup key with
    | some v => .ok v
    | none => .error ()
  | _ => .error ()

/-- Python iteration `for s in v`: lists yield their elements, strings yield
their one-character substrings, dicts yield their keys, every other value
raises. -/
def pyIter : JVal → Except Unit (List JVal)
  | .arr l => .ok l
  | .str s => .ok (s.toList.map (fun c => .str (String.singleton c)))
  | .obj fs => .ok (fs.map (fun p => .str p.1))
  | _ => .error ()

/-- The characters removed by Python's `str.strip()` (ASCII whitespace). -/
def isPySpace (c : Char) : Bool :=
  c = ' ' || c = '\t' || c = '\n' || c = '\r' || c = '\x0b' || c = '\x0c'

/-- Python `str.strip()`: remove leading and trailing whitespace. -/
def pyStrip (s : String) : String :=
  ⟨((s.data.dropWhile isPySpace).reverse.dropWhile isPySpace).reverse⟩

/-- The value of a run of decimal digits. -/
def digitsToNat (cs : List Char) : Nat :=
  cs.foldl (fun n c => 10 * n + (c.toNat - '0'.toNat)) 0

/-- Python `int(s)` on a string: optional surrounding whitespace, optional
sign, then a nonempty digit run; anything else raises (`none`). -/
def pyIntOfString (s : String) : Option Int :=
  let cs := (pyStrip s).data
  let signed : Bool × List Char :=
    match cs with
    | '-' :: rest => (true, rest)
    | '+' :: rest => (false, rest)
    | _ => (false, cs)
  let ds := signed.2
  if ds.isEmpty || !ds.all Char.isDigit then none
  else some (if signed.1 then -(digitsToNat ds : Int) else (digitsToNat ds : Int))

/-- Python `int(float(s))` on a string: like `pyIntOfString` but a single
decimal point with digits on at least one side is accepted and the
fractional part is truncated toward zero.  (Exponent notation is not
modelled.) -/
def pyFloatTruncOfString (s : String) : Option Int :=
  let cs := (pyStrip s).data
  let signed : Bool × List Char :=
    match cs with
    | '-' :: rest => (true, rest)
    | '+' :: rest => (false, rest)
    | _ => (false, cs)
  let ds := signed.2
  let intPart := ds.takeWhile (fun c => c ≠ '.')
  let ok : Bool :=
    match ds.dropWhile (fun c => c ≠ '.') with
    | [] => !intPart.isEmpty && intPart.all Char.isDigit
    | _ :: frac =>
      intPart.all Char.isDigit && frac.all Char.isDigit
        && !(intPart.isEmpty && frac.isEmpty)
  if ok then some (if signed.1 then -(digitsToNat intPart : Int) else (digitsToNat intPart : Int))
  else none

/-- Python `int(x)` on a JSON value: numbers unchanged, booleans become
`1`/`0`, integer-literal strings are parsed, everything else raises. -/
def pyInt : JVal → Option Int
  | .num n => some n
  | .bool b => some (if b then 1 else 0)
  | .str s => pyIntOfString s
  | _ => none

/-- Python `int(float(x))` on a JSON value (and, at the integer precision of
this model, also the sort key `float(x)`). -/
def pyFloatInt : JVal → Option Int
  | .num n => some n
  | .bool b => some (if b then 1 else 0)
  | .str s => pyFloatTruncOfString s
  | _ => none

/-- `[line.strip() for line in f if line.strip()]` — the device-list
comprehension shared by all four scripts, applied to the file's lines. -/
def loadHosts (lines : List String) : List String :=
  lines.filterMap (fun line =>
    let s := pyStrip line
    if s = "" then none else some s)

/-- `format_uptime` from `shelly-status-check.py`: truncate the input to an
integer and render days/hours/minutes; any conversion failure yields the
dash sentinel.  Python `//` and `%` on a positive divisor are `Int.ediv`
and `Int.emod`. -/
def format_uptime (seconds : JVal) : String :=
  match pyFloatInt seconds with
  | none => "–"
  | some s =>
    let days := s / 86400
    let hours := s % 86400 / 3600
    let minutes := s % 3600 / 60
    s!"{days}d {hours}h {minutes}m"

/-- `parse_rssi` from `shelly-status-check.py`: `int(value)` with every
conversion failure mapped to the minus-infinity sentinel, modelled as
`none`. -/
def parse_rssi (value : JVal) : Option Int :=
  pyInt value

/-! ## The status-snapshot per-device loop (`shelly-status-check.py`) -/

/-- The six RPC endpoints queried per device by the status check, in the
order the script issues them. -/
inductive Facet where
  | sysGetConfig
  | sysGetStatus
  | wifiGetStatus
  | bleGetConfig
  | scriptList
  | mqttGetConfig
deriving DecidableEq

/-- One row of `table_data`, with the fields of the `row` dict.  Cells that
can hold arbitrary JSON values are `JVal`; cells the script only ever
assigns strings to are `String`. -/
structure Row where
  ip : String
  erreichbar : String
  uptime : String
  uptimeRaw : JVal
  ecoMode : JVal
  wifi : JVal
  bluetooth : String
  mqtt : String
  debugUdp : JVal
  skripte : String

/-- The initial `row` dict built at the top of the per-device loop. -/
def defaultRow (ip : String) : Row where
  ip := ip
  erreichbar := "❌"
  uptime := "–"
  uptimeRaw := .num 0
  ecoMode := .str "–"
  wifi := .str "–"
  bluetooth := "–"
  mqtt := "–"
  debugUdp := .str "–"
  skripte := "–"

/-- `sysconf.get('device', {}).get('eco_mode', "n.a.")` -/
def ecoModeField (sysconf : JVal) : Except Unit JVal := do
  let d ← dictGet sysconf "device" (.obj [])
  dictGet d "eco_mode" (.str "n.a.")

/-- `sysconf.get('debug', {}).get('udp', {}).get('addr', "–")` -/
def debugUdpField (sysconf : JVal) : Except Unit JVal := do
  let d ← dictGet sysconf "debug" (.obj [])
  let u ← dictGet d "udp" (.obj [])
  dictGet u "addr" (.str "–")

/-- `script_names = [s["name"] for s in scripts.get("scripts", [])]` followed
by `", ".join(script_names) if script_names else "–"`.  The join raises when
a collected name is not a string. -/
def skripteField (scripts : JVal) : Except Unit String := do
  let sv ← dictGet scripts "scripts" (.arr [])
  let items ← pyIter sv
  let names ← items.mapM (fun s => pySubscript s "name")
  if names.isEmpty then
    Except.ok "–"
  else
    let strs ← names.mapM (fun v =>
      match v with
      | .str t => Except.ok t
      | _ => Except.error ())
    Except.ok (String.intercalate ", " strs)

/-- The assignment block of the `try:` body, entered once all six calls have
returned a payload.  Each assignment's right-hand side may raise, in which
case the assignments made so far are kept and the rest are skipped (the
loop's `except Exception: pass`). -/
def fillRow (row : Row) (sysconf sysstatus wifi ble scripts mqtt : JVal) : Row :=
  let row := { row with erreichbar := "✅" }
  match ecoModeField sysconf with
  | .error _ => row
  | .ok eco =>
  let row := { row with ecoMode := eco }
  match debugUdpField sysconf with
  | .error _ => row
  | .ok dbg =>
  let row := { row with debugUdp := dbg }
  match dictGet sysstatus "uptime" (.num 0) with
  | .error _ => row
  | .ok upt =>
  -- `row["Uptime"]` and `row["UptimeRaw"]` evaluate `sysstatus.get("uptime", 0)`
  -- twice; the two evaluations are pure and identical.
  let row := { row with uptime := format_uptime upt }
  let row := { row with uptimeRaw := upt }
  match dictGet wifi "rssi" (.str "❓") with
  | .error _ => row
  | .ok rssi =>
  let row := { row with wifi := rssi }
  match dictGet ble "enable" (.bool false) with
  | .error _ => row
  | .ok bleEn =>
  let row := { row with bluetooth := if pyTruthy bleEn then "✅" else "❌" }
  match dictGet mqtt "enable" (.bool false) with
  | .error _ => row
  | .ok mqttEn =>
  let row := { row with mqtt := if pyTruthy mqttEn then "✅" else "❌" }
  match skripteField scripts with
  | .error _ => row
  | .ok sk => { row with skripte := sk }

/-- The body of the per-device loop: the six `requests.get(...).json()`
calls are issued sequentially inside one `try:`; the first raising call
aborts the rest of the body, leaving the row as built so far. -/
def buildRow (ip : String) (env : Facet → Option JVal) : Row :=
  let row := defaultRow ip
  match env .sysGetConfig with
  | none => row
  | some sysconf =>
  match env .sysGetStatus with
  | none => row
  | some sysstatus =>
  match env .wifiGetStatus with
  | none => row
  | some wifi =>
  match env .bleGetConfig with
  | none => row
  | some ble =>
  match env .scriptList with
  | none => row
  | some scripts =>
  match env .mqttGetConfig with
  | none => row
  | some mqtt => fillRow row sysconf sysstatus wifi ble scripts mqtt

/-- The whole per-device loop: one row is appended to `table_data` for every
address, in input order. -/
def statusTable (ips : List String) (env : String → Facet → Option JVal) : List Row :=
  ips.map (fun ip => buildRow ip (env ip))

/-! ## The sort block of `shelly-status-check.py`

`table_data.sort(key=..., reverse=...)` is CPython's stable sort with a key
function; it is modelled by `List.mergeSort` (also stable) over the
corresponding order.  For `--sort uptime` the key is
`float(row.get("UptimeRaw", 0))`, whose conversion can raise and abort the
whole run; that run-aborting exception is the `Except.error` case. -/

/-- The `--sort` CLI choices. -/
inductive SortKey where
  | uptime
  | wifi
  | ip

/-- The `--sort uptime` key `float(row.get("UptimeRaw", 0))` (integer
precision). -/
def uptimeKey (row : Row) : Option Int :=
  pyFloatInt row.uptimeRaw

/-- Order on optional integers with `none` as the bottom element
(`float('-inf')`). -/
def optIntLe : Option Int → Option Int → Bool
  | none, _ => true
  | some _, none => false
  | some a, some b => a ≤ b

/-- Descending comparison on the uptime key (`reverse=True`). -/
def uptimeLe (a b : Row) : Bool :=
  optIntLe (uptimeKey b) (uptimeKey a)

/-- Descending comparison on `parse_rssi(row["WiFi (dBm)"])`
(`reverse=True`). -/
def rssiLe (a b : Row) : Bool :=
  optIntLe (parse_rssi b.wifi) (parse_rssi a.wifi)

/-- Ascending comparison on `row["IP"]`; `String` order is lexicographic on
the character sequence, as in Python. -/
def ipLe (a b : Row) : Bool :=
  decide (a.ip ≤ b.ip)

/-- The sort block.  For `uptime` the decorate phase applies `float` to
every key first, so one unconvertible `UptimeRaw` raises before any
reordering and kills the run (`Except.error`); `parse_rssi` catches its own
conversion failures, and the `ip` sort key is an unconverted string, so the
other two branches never raise. -/
def sortTable : SortKey → List Row → Except Unit (List Row)
  | .uptime, tableData =>
    if tableData.all (fun r => (uptimeKey r).isSome) then
      .ok (tableData.mergeSort uptimeLe)
    else .error ()
  | .wifi, tableData => .ok (tableData.mergeSort rssiLe)
  | .ip, tableData => .ok (tableData.mergeSort ipLe)

/-! ## `shelly-restart.py` -/

/-- The outcome of one `requests.post` as seen by its caller: either the
server responded (any status, with a body), or the request raised a
`RequestException`. -/
inductive HttpResult where
  | resp (status : Nat) (body : String)
  | exc (msg : String)

/-- The HTTP status of a result, when the server responded. -/
def statusOf : HttpResult → Option Nat
  | .resp s _ => some s
  | .exc _ => none

/-- `restart_device` from `shelly-restart.py`: one POST to
`/rpc/Shelly.Reboot`; `(ok, message)`. -/
def restart_device (r : HttpResult) : Bool × String :=
  match r with
  | .resp status text =>
    if status == 200 then (true, "Reboot triggered")
    else (false, s!"HTTP {status} - {text}")
  | .exc msg => (false, msg)

/-- The restart loop: one `restart_device` call per host, in order. -/
def restartResults (hosts : List String) (net : String → HttpResult) :
    List (String × Bool × String) :=
  hosts.map (fun h => (h, restart_device (net h)))

/-- Observable outcome of a fleet-script run: the process exit code and the
devices a network call was issued to, in order. -/
structure RestartRun where
  exitCode : Nat
  calls : List String
  results : List (String × Bool × String)

/-- `main` of `shelly-restart.py`.  Any exception while reading the file is
caught and exits 1; an empty host list exits 1 before the loop; otherwise
the loop runs and the exit code is 2 iff some device failed. -/
def restartMain (file : Except Unit (List String)) (net : String → HttpResult) :
    RestartRun :=
  match file with
  | .error _ => { exitCode := 1, calls := [], results := [] }
  | .ok lines =>
    let hosts := loadHosts lines
    if hosts.isEmpty then { exitCode := 1, calls := [], results := [] }
    else
      let results := restartResults hosts net
      let failCount := (results.filter (fun r => !r.2.1)).length
      { exitCode := if failCount > 0 then 2 else 0, calls := hosts, results := results }

/-! ## `shelly-debug-setter.py` and `shelly-mqtt-config.py` -/

/-- The config/command RPC endpoints the two config-push scripts POST to. -/
inductive Endpoint where
  | sysSetConfig
  | mqttSetConfig
  | shellyReboot
deriving DecidableEq

/-- `set_gen2_udp_debug` from `shelly-debug-setter.py`: exactly one POST to
`/rpc/Sys.SetConfig`; `raise_for_status()` raises `HTTPError` for status
400–599; `(calls issued, printed line)`. -/
def set_gen2_udp_debug (ip targetHost targetPort : String) (resp : HttpResult) :
    List Endpoint × String :=
  ([Endpoint.sysSetConfig],
    match resp with
    | .exc m => s!"[✗] {ip}: Verbindungsfehler - {m}"
    | .resp status reason =>
      if 400 ≤ status && status < 600 then
        s!"[✗] {ip}: HTTP-Fehler - {status} {reason}"
      else
        s!"[✓] {ip}: Debug-Ziel gesetzt auf {targetHost}:{targetPort}")

/-- How reading the address-list file can go for `shelly-debug-setter.py`:
only `FileNotFoundError` is caught (and `main` plainly returns, exit 0);
any other read error propagates out of `main` (process exit 1). -/
inductive DFile where
  | notFound
  | otherError
  | ok (lines : List String)

/-- Observable outcome of a debug-setter run. -/
structure DebugRun where
  exitCode : Nat
  calls : List (String × Endpoint)

/-- `main` of `shelly-debug-setter.py`: never calls `sys.exit`; after the
loop (or the caught `FileNotFoundError`) the process ends with exit code 0
regardless of per-device outcomes. -/
def debugMain (file : DFile) (host port : String) (net : String → HttpResult) :
    DebugRun :=
  match file with
  | .notFound => { exitCode := 0, calls := [] }
  | .otherError => { exitCode := 1, calls := [] }
  | .ok lines =>
    { exitCode := 0,
      calls := (loadHosts lines).flatMap (fun ip =>
        ((set_gen2_udp_debug ip host port (net ip)).1).map (fun e => (ip, e))) }

/-- The per-host body of the `shelly-mqtt-config.py` loop: one POST to
`/rpc/MQTT.SetConfig`; on status 200 a POST to `/rpc/Shelly.Reboot` follows
unconditionally; every exception is caught by the per-host `except`.
Returns the calls issued for this host and the printed lines. -/
def mqttHost (host : String) (cfgResp rebootResp : HttpResult) :
    List Endpoint × List String :=
  match cfgResp with
  | .exc m =>
    ([Endpoint.mqttSetConfig],
      [s!"❌ {host}: Netzwerkfehler oder nicht erreichbar - {m}"])
  | .resp status text =>
    if status == 200 then
      ([Endpoint.mqttSetConfig, Endpoint.shellyReboot],
        match rebootResp with
        | .exc m =>
          [s!"✅ {host}: MQTT erfolgreich konfiguriert.",
           s!"🔁 {host}: Gerät wird neu gestartet ...",
           s!"❌ {host}: Netzwerkfehler oder nicht erreichbar - {m}"]
        | .resp rs rt =>
          if rs == 200 then
            [s!"✅ {host}: MQTT erfolgreich konfiguriert.",
             s!"🔁 {host}: Gerät wird neu gestartet ...",
             s!"✅ {host}: Neustart ausgelöst."]
          else
            [s!"✅ {host}: MQTT erfolgreich konfiguriert.",
             s!"🔁 {host}: Gerät wird neu gestartet ...",
             s!"⚠️  {host}: Neustart fehlgeschlagen – {rt}"])
    else
      ([Endpoint.mqttSetConfig], [s!"❌ {host}: Fehler {status} – {text}"])

/-! ## Helper lemmas -/

/-- The assignment block never touches `row["IP"]`. -/
theorem fillRow_ip (row : Row) (a b c d e f : JVal) :
    (fillRow row a b c d e f).ip = row.ip := by
  unfold fillRow
  repeat' split
  all_goals rfl

/-- The assignment block always sets `row["Erreichbar"]` to the check mark
first, and no later assignment changes it. -/
theorem fillRow_erreichbar (row : Row) (a b c d e f : JVal) :
    (fillRow row a b c d e f).erreichbar = "✅" := by
  unfold fillRow
  repeat' split
  all_goals rfl

/-- Every row keeps the address it was built for. -/
theorem buildRow_ip (ip : String) (env : Facet → Option JVal) :
    (buildRow ip env).ip = ip := by
  unfold buildRow
  repeat' split
  all_goals simp [fillRow_ip, defaultRow]

/-- A concrete status-snapshot environment: the two system calls (and the
three trailing facets) succeed, the wifi-status call raises. -/
def env1 : Facet → Option JVal
  | .wifiGetStatus => none
  | _ => some (JVal.obj [])

/-- A concrete environment where the system calls succeed with real data
(uptime 90061 s, eco mode on) and the wifi-status call raises. -/
def env2 : Facet → Option JVal
  | .sysGetConfig => some (.obj [("device", .obj [("eco_mode", .bool true)])])
  | .sysGetStatus => some (.obj [("uptime", .num 90061)])
  | .wifiGetStatus => none
  | _ => some (.obj [])

/-! ## Claims -/

/-- C3: for every non-empty address list, the report contains exactly one
result per input address, in input order: the row (resp. restart-result)
addresses are exactly the input list, so none is missing and none is
duplicated beyond its multiplicity in the input.  Stated for the
status-check table and for the restart loop. -/
theorem C3_one_result_per_address (ips : List String)
    (env : String → Facet → Option JVal)
    (hosts : List String) (net : String → HttpResult)
    (_hips : ips ≠ []) (_hhosts : hosts ≠ []) :
    (statusTable ips env).map Row.ip = ips
    ∧ (statusTable ips env).length = ips.length
    ∧ (restartResults hosts net).map Prod.fst = hosts
    ∧ (restartResults hosts net).length = hosts.length := by
  have hfun : (fun ip => (buildRow ip (env ip)).ip) = fun ip : String => ip :=
    funext (fun ip => buildRow_ip ip (env ip))
  refine ⟨?_, ?_, ?_, ?_⟩
  · rw [statusTable, List.map_map]
    simp only [Function.comp_def, hfun, List.map_id']
  · simp [statusTable]
  · rw [restartResults, List.map_map]
    simp only [Function.comp_def, List.map_id']
  · simp [restartResults]

/-- Witness for C3 at a concrete one-element fleet. -/
theorem C3_one_result_per_address_witness :
    (statusTable ["10.0.0.1"] (fun _ => env1)).map Row.ip = ["10.0.0.1"]
    ∧ (restartResults ["10.0.0.2"] (fun _ => HttpResult.exc "down")).map Prod.fst
        = ["10.0.0.2"] := by
  have h := C3_one_result_per_address ["10.0.0.1"] (fun _ => env1)
    ["10.0.0.2"] (fun _ => HttpResult.exc "down") (by decide) (by decide)
  exact ⟨h.1, h.2.2.1⟩

/-- C4: a failing device's outcome is recorded in its own result, and the
other devices' results are exactly those of a run without the failing
device: splitting the address list around the failing address splits the
report accordingly, and dropping the address drops only its own row.
Stated for the status-check loop and for the restart loop. -/
theorem C4_failure_isolated (ips1 ips2 : List String) (bad : String)
    (env : String → Facet → Option JVal) (net : String → HttpResult) :
    statusTable (ips1 ++ bad :: ips2) env
      = statusTable ips1 env ++ buildRow bad (env bad) :: statusTable ips2 env
    ∧ statusTable (ips1 ++ ips2) env = statusTable ips1 env ++ statusTable ips2 env
    ∧ restartResults (ips1 ++ bad :: ips2) net
      = restartResults ips1 net
          ++ (bad, restart_device (net bad)) :: restartResults ips2 net
    ∧ restartResults (ips1 ++ ips2) net
      = restartResults ips1 net ++ restartResults ips2 net := by
  refine ⟨?_, ?_, ?_, ?_⟩ <;> simp [statusTable, restartResults]

/-- C7 counterexample: HTTP 204 is a 2xx status, yet `restart_device`
reports it as a failure — the code accepts exactly status 200, not all of
2xx. -/
theorem C7_counterexample :
    200 ≤ 204 ∧ 204 < 300
    ∧ restart_device (HttpResult.resp 204 "No Content")
        = (false, "HTTP 204 - No Content") := by
  refine ⟨by norm_num, by norm_num, rfl⟩

/-- C7 (amended): a reboot call succeeds exactly when the response status is
200; any other responded status (2xx included) yields the HTTP-error
outcome carrying the status and body, a raising request yields the
transport-error outcome with its message, and no call is retried — the run
issues exactly one call per host. -/
theorem C7_success_only_on_200 (s : Nat) (t m : String) (lines : List String)
    (net : String → HttpResult) :
    restart_device (HttpResult.resp s t)
      = (if s = 200 then (true, "Reboot triggered") else (false, s!"HTTP {s} - {t}"))
    ∧ ((restart_device (HttpResult.resp s t)).1 = true ↔ s = 200)
    ∧ restart_device (HttpResult.exc m) = (false, m)
    ∧ (restartMain (Except.ok lines) net).calls = loadHosts lines := by
  refine ⟨?_, ?_, rfl, ?_⟩
  · simp only [restart_device]
    by_cases h : s = 200 <;> simp [h]
  · simp only [restart_device]
    by_cases h : s = 200 <;> simp [h]
  · by_cases h : (loadHosts lines).isEmpty
    · simp [restartMain, h, List.isEmpty_iff.mp h]
    · simp [restartMain, h]

/-- C8: the MQTT-config variant chains a reboot call iff the config-set
call returned status 200, with no caller-controlled option involved, while
the debug-redirect variant issues exactly its one config-set call and never
a reboot. -/
theorem C8_reboot_chaining (host ip targetHost targetPort : String)
    (cfg reboot resp : HttpResult) :
    (Endpoint.shellyReboot ∈ (mqttHost host cfg reboot).1 ↔ statusOf cfg = some 200)
    ∧ (set_gen2_udp_debug ip targetHost targetPort resp).1 = [Endpoint.sysSetConfig] := by
  refine ⟨?_, rfl⟩
  cases cfg with
  | exc m => simp [mqttHost, statusOf]
  | resp st text =>
    simp only [mqttHost, statusOf]
    by_cases h : st = 200 <;> simp [h]

/-- C1 counterexample: in a run where both system calls succeed but the
wifi-status call fails, the device is reported unreachable — the reachable
flag is not determined by the two system calls alone, so the claimed
independence of the six facet calls fails on the code. -/
theorem C1_counterexample :
    (env1 Facet.sysGetConfig).isSome = true
    ∧ (env1 Facet.sysGetStatus).isSome = true
    ∧ (buildRow "192.168.1.20" env1).erreichbar = "❌" :=
  ⟨rfl, rfl, rfl⟩

/-- C1 (amended): the six facet calls are issued sequentially inside one
exception scope, so the first failing call also skips the remaining calls,
and the reachable mark is set iff all six calls succeeded. -/
theorem C1_reachable_iff_all_six (ip : String) (env : Facet → Option JVal) :
    (buildRow ip env).erreichbar = "✅" ↔ ∀ f : Facet, (env f).isSome := by
  unfold buildRow
  cases h1 : env Facet.sysGetConfig with
  | none =>
    refine iff_of_false (by simp [defaultRow]) (fun hall => ?_)
    have := hall Facet.sysGetConfig
    rw [h1] at this
    exact absurd this (by decide)
  | some a =>
  cases h2 : env Facet.sysGetStatus with
  | none =>
    refine iff_of_false (by simp [defaultRow]) (fun hall => ?_)
    have := hall Facet.sysGetStatus
    rw [h2] at this
    exact absurd this (by decide)
  | some b =>
  cases h3 : env Facet.wifiGetStatus with
  | none =>
    refine iff_of_false (by simp [defaultRow]) (fun hall => ?_)
    have := hall Facet.wifiGetStatus
    rw [h3] at this
    exact absurd this (by decide)
  | some c =>
  cases h4 : env Facet.bleGetConfig with
  | none =>
    refine iff_of_false (by simp [defaultRow]) (fun hall => ?_)
    have := hall Facet.bleGetConfig
    rw [h4] at this
    exact absurd this (by decide)
  | some d =>
  cases h5 : env Facet.scriptList with
  | none =>
    refine iff_of_false (by simp [defaultRow]) (fun hall => ?_)
    have := hall Facet.scriptList
    rw [h5] at this
    exact absurd this (by decide)
  | some e =>
  cases h6 : env Facet.mqttGetConfig with
  | none =>
    refine iff_of_false (by simp [defaultRow]) (fun hall => ?_)
    have := hall Facet.mqttGetConfig
    rw [h6] at this
    exact absurd this (by decide)
  | some f =>
    refine iff_of_true (fillRow_erreichbar _ _ _ _ _ _ _) (fun g => ?_)
    cases g <;> simp [h1, h2, h3, h4, h5, h6]

/-- C2 counterexample: with the system calls succeeding (uptime 90061 s,
eco mode on) and the wifi call failing, the row shows the dash sentinel for
uptime, eco-mode and signal strength instead of the values from the
succeeding system calls (which would have rendered uptime as
"1d 1h 1m"). -/
theorem C2_counterexample :
    env2 Facet.wifiGetStatus = none
    ∧ (env2 Facet.sysGetConfig).isSome = true
    ∧ (env2 Facet.sysGetStatus).isSome = true
    ∧ (buildRow "192.168.1.30" env2).uptime = "–"
    ∧ (buildRow "192.168.1.30" env2).ecoMode = JVal.str "–"
    ∧ (buildRow "192.168.1.30" env2).wifi = JVal.str "–"
    ∧ format_uptime (JVal.num 90061) = "1d 1h 1m" :=
  ⟨rfl, rfl, rfl, rfl, rfl, rfl, rfl⟩

/-- C2 (amended): when a device's wifi-status call fails, the run does not
crash and the device's row is still appended at its position, but the row
is the all-defaults row: marked unreachable, with uptime, eco-mode and
signal strength all showing the dash sentinel rather than values from the
succeeding system calls (the "❓" sentinel appears only when the wifi call
succeeds without an `rssi` key). -/
theorem C2_wifi_failure_defaults_row (ip : String)
    (env : String → Facet → Option JVal) (h : env ip Facet.wifiGetStatus = none)
    (ips1 ips2 : List String) :
    statusTable (ips1 ++ ip :: ips2) env
      = statusTable ips1 env ++ defaultRow ip :: statusTable ips2 env := by
  have hrow : buildRow ip (env ip) = defaultRow ip := by
    unfold buildRow
    cases h1 : env ip Facet.sysGetConfig with
    | none => rfl
    | some a =>
      cases h2 : env ip Facet.sysGetStatus with
      | none => rfl
      | some b => rw [h]
  simp [statusTable, hrow]

/-- Witness for C2 (amended) at the concrete environment `env2`. -/
theorem C2_wifi_failure_defaults_row_witness :
    statusTable ([] ++ "192.168.1.30" :: []) (fun _ => env2)
      = statusTable [] (fun _ => env2)
          ++ defaultRow "192.168.1.30" :: statusTable [] (fun _ => env2) :=
  C2_wifi_failure_defaults_row "192.168.1.30" (fun _ => env2) rfl [] []

/-- C5 counterexample: the push-config debug-setter exits with code 0 when
the address-list file is missing, where the claim requires exit code 1. -/
theorem C5_counterexample :
    (debugMain DFile.notFound "192.168.1.100" "514"
        (fun _ => HttpResult.exc "unreachable")).exitCode = 0 :=
  rfl

/-- C5 (amended): the 0/2/1 exit-code policy holds for the reboot operation
(`shelly-restart.py`): unreadable file → exit 1 with no network call, empty
loaded list → exit 1 with no network call, otherwise exit 0 when every
device succeeded and 2 when at least one failed.  The push-config
debug-setter does not follow the policy: it exits 0 when the file is
missing, when the list is empty and regardless of device failures, and
exits 1 only when reading the file fails with something other than
`FileNotFoundError` (an uncaught exception). -/
theorem C5_exit_codes (net : String → HttpResult) (lines : List String)
    (f : DFile) (host port : String) :
    restartMain (Except.error ()) net = ⟨1, [], []⟩
    ∧ (loadHosts lines = [] → restartMain (Except.ok lines) net = ⟨1, [], []⟩)
    ∧ (loadHosts lines ≠ [] →
        (restartMain (Except.ok lines) net).exitCode
          = if (loadHosts lines).all (fun h => (restart_device (net h)).1) then 0 else 2)
    ∧ (debugMain f host port net).exitCode
        = (match f with | .otherError => 1 | _ => 0) := by
  refine ⟨rfl, ?_, ?_, ?_⟩
  · intro h
    simp [restartMain, h]
  · intro h
    have hne : ¬ (loadHosts lines).isEmpty := by
      simpa [List.isEmpty_iff] using h
    simp only [restartMain, hne, if_false, Bool.false_eq_true]
    have hiff : ((restartResults (loadHosts lines) net).filter
          (fun r => !r.2.1)).length = 0
        ↔ (loadHosts lines).all (fun h => (restart_device (net h)).1) = true := by
      simp [restartResults, List.length_eq_zero, List.filter_eq_nil_iff,
        List.all_eq_true]
    by_cases hall : (loadHosts lines).all (fun h => (restart_device (net h)).1)
    · have hlen := hiff.mpr hall
      simp [hall, hlen]
    · have hlen : ((restartResults (loadHosts lines) net).filter
          (fun r => !r.2.1)).length ≠ 0 := fun hc => hall (hiff.mp hc)
      simp [hall, Nat.pos_of_ne_zero hlen]
  · cases f <;> rfl

/-- Witness for C5 (amended): one host that refuses the connection gives
exit code 2, and a whitespace-only list file gives exit 1 with no call. -/
theorem C5_exit_codes_witness :
    (restartMain (Except.ok ["shelly1"]) (fun _ => HttpResult.exc "boom")).exitCode = 2
    ∧ restartMain (Except.ok [" \n"]) (fun _ => HttpResult.exc "boom") = ⟨1, [], []⟩ := by
  have h1 := C5_exit_codes (fun _ => HttpResult.exc "boom") ["shelly1"]
    DFile.notFound "h" "p"
  have h2 := C5_exit_codes (fun _ => HttpResult.exc "boom") [" \n"]
    DFile.notFound "h" "p"
  refine ⟨?_, h2.2.1 (by decide)⟩
  have h3 := h1.2.2.1 (by decide)
  simpa using h3

/-- Characterization of the list-level strip: the stripped character list is
empty iff every character is whitespace. -/
theorem stripChars_eq_nil_iff (l : List Char) :
    ((l.dropWhile isPySpace).reverse.dropWhile isPySpace).reverse = []
      ↔ ∀ c ∈ l, isPySpace c := by
  rw [List.reverse_eq_nil_iff, List.dropWhile_eq_nil_iff]
  simp only [List.mem_reverse]
  constructor
  · intro h c hc
    have hsplit : c ∈ l.takeWhile isPySpace ++ l.dropWhile isPySpace := by
      rw [List.takeWhile_append_dropWhile]; exact hc
    rcases List.mem_append.mp hsplit with h1 | h2
    · exact List.mem_takeWhile_imp h1
    · exact h c h2
  · intro h c hc
    exact h c ((List.dropWhile_sublist _).mem hc)

/-- `pyStrip` yields the empty string iff the line is whitespace-only. -/
theorem pyStrip_eq_empty_iff (s : String) :
    pyStrip s = "" ↔ ∀ c ∈ s.data, isPySpace c := by
  rw [← stripChars_eq_nil_iff s.data]
  unfold pyStrip
  exact ⟨fun h => congrArg String.data h, fun h => congrArg String.mk h⟩

/-- C9: the loaded device list is exactly the file's lines with surrounding
whitespace stripped and whitespace-only lines removed, in original order;
in particular a line is never dropped for looking like a comment — every
line with any non-whitespace character, `#`-prefixed or not, is kept. -/
theorem C9_device_list_loading (lines : List String) :
    loadHosts lines
      = (lines.filter (fun l => !l.data.all isPySpace)).map pyStrip
    ∧ ∀ l ∈ lines, ¬ (∀ c ∈ l.data, isPySpace c) → pyStrip l ∈ loadHosts lines := by
  have hmain : ∀ ls : List String,
      loadHosts ls = (ls.filter (fun l => !l.data.all isPySpace)).map pyStrip := by
    intro ls
    induction ls with
    | nil => rfl
    | cons l t ih =>
      by_cases h : pyStrip l = ""
      · have hws : l.data.all isPySpace := by
          rw [List.all_eq_true]
          exact (pyStrip_eq_empty_iff l).mp h
        simp [loadHosts, List.filter_cons, hws, h] at ih ⊢
        exact ih
      · have hws : ¬ l.data.all isPySpace = true := by
          rw [List.all_eq_true]
          exact fun hc => h ((pyStrip_eq_empty_iff l).mpr hc)
        simp [loadHosts, List.filter_cons, hws, h] at ih ⊢
        exact ih
  refine ⟨hmain lines, fun l hl hns => ?_⟩
  rw [hmain lines]
  refine List.mem_map.mpr ⟨l, List.mem_filter.mpr ⟨hl, ?_⟩, rfl⟩
  simpa [List.all_eq_true] using hns

/-- Witness for C9: a `#`-prefixed line is loaded like any other line. -/
theorem C9_device_list_loading_witness :
    pyStrip " # not a comment " ∈ loadHosts ["shelly1", " # not a comment "] :=
  (C9_device_list_loading ["shelly1", " # not a comment "]).2
    " # not a comment " (by decide) (by decide)

/-- C10: the uptime formatter is total; on every input convertible to a
number with truncated integer value `s` it renders the day/hour/minute
fields given by Python floor division and modulo (`Int.ediv` / `Int.emod`
for the positive divisors used), with the expected bounds for nonnegative
`s`; on every unconvertible input it returns the dash sentinel instead of
raising. -/
theorem C10_format_uptime (j : JVal) (s : Int) (hs : pyFloatInt j = some s) :
    format_uptime j
      = s!"{s / 86400}d {s % 86400 / 3600}h {s % 3600 / 60}m"
    ∧ (0 ≤ s →
        s % 86400 / 3600 < 24
        ∧ s % 3600 / 60 < 60
        ∧ s / 86400 * 86400 + s % 86400 / 3600 * 3600 + s % 3600 / 60 * 60 ≤ s)
    ∧ ∀ j2 : JVal, pyFloatInt j2 = none → format_uptime j2 = "–" := by
  refine ⟨?_, ?_, ?_⟩
  · simp [format_uptime, hs]
  · intro h0
    refine ⟨?_, ?_, ?_⟩ <;> omega
  · intro j2 h2
    simp [format_uptime, h2]

/-- `optIntLe` is total. -/
theorem optIntLe_total (x y : Option Int) : optIntLe x y || optIntLe y x := by
  cases x <;> cases y <;> simp [optIntLe]
  omega

/-- `optIntLe` is transitive. -/
theorem optIntLe_trans {x y z : Option Int}
    (h1 : optIntLe x y) (h2 : optIntLe y z) : optIntLe x z := by
  cases x <;> cases y <;> cases z <;> simp_all [optIntLe]
  omega

/-- `optIntLe` is reflexive. -/
theorem optIntLe_refl (x : Option Int) : optIntLe x x := by
  cases x <;> simp [optIntLe]

/-- Stability of the stable sort, as the Python docs state it: elements
whose keys compare equal keep their input order.  Formally, for any
predicate `p` selecting a single equivalence class of the order (any two
selected elements compare `le` both ways), filtering the sorted list by `p`
gives exactly the input filtered by `p`. -/
theorem mergeSort_filter_stable {α : Type} {le : α → α → Bool}
    (trans : ∀ a b c : α, le a b → le b c → le a c)
    (total : ∀ a b : α, le a b || le b a)
    (l : List α) (p : α → Bool) (hp : ∀ a b : α, p a → p b → le a b) :
    (l.mergeSort le).filter p = l.filter p := by
  have hpair : (l.filter p).Pairwise (fun a b => le a b) :=
    List.pairwise_of_forall_mem_list (fun a ha b hb =>
      hp a b (List.of_mem_filter ha) (List.of_mem_filter hb))
  have hsub : List.Sublist (l.filter p) (l.mergeSort le) :=
    List.sublist_mergeSort trans total hpair (List.filter_sublist l)
  have hidem : (l.filter p).filter p = l.filter p :=
    List.filter_eq_self.mpr (fun a ha => List.of_mem_filter ha)
  have hsub2 : List.Sublist (l.filter p) ((l.mergeSort le).filter p) := by
    have h := hsub.filter p
    rwa [hidem] at h
  have hlen : ((l.mergeSort le).filter p).length = (l.filter p).length :=
    ((List.mergeSort_perm l le).filter p).length_eq
  exact (hsub2.eq_of_length hlen.symm).symm

/-- C6: the sort block orders the report as claimed.  For `--sort uptime`
and `--sort wifi` the produced order is descending in the numeric derived
key (`uptimeLe`/`rssiLe` compare the keys of the later row below the
earlier, with the minus-infinity sentinel at the bottom), rows with equal
keys keep their original input order (the filter formulation of
stability), and the output is a permutation of the input; for `--sort ip`
the output is lexicographically ascending in the raw address string. -/
theorem C6_sort_logic (rows out : List Row) :
    (sortTable SortKey.uptime rows = Except.ok out →
       out.Pairwise (fun a b => uptimeLe a b)
       ∧ (∀ k : Option Int,
            out.filter (fun r => uptimeKey r == k)
              = rows.filter (fun r => uptimeKey r == k))
       ∧ out.Perm rows)
    ∧ (sortTable SortKey.wifi rows = Except.ok out →
       out.Pairwise (fun a b => rssiLe a b)
       ∧ (∀ k : Option Int,
            out.filter (fun r => parse_rssi r.wifi == k)
              = rows.filter (fun r => parse_rssi r.wifi == k))
       ∧ out.Perm rows)
    ∧ (sortTable SortKey.ip rows = Except.ok out →
       out.Pairwise (fun a b => a.ip ≤ b.ip) ∧ out.Perm rows) := by
  have uptTrans : ∀ a b c : Row, uptimeLe a b → uptimeLe b c → uptimeLe a c :=
    fun _ _ _ h1 h2 => optIntLe_trans h2 h1
  have uptTotal : ∀ a b : Row, uptimeLe a b || uptimeLe b a :=
    fun a b => optIntLe_total (uptimeKey b) (uptimeKey a)
  have rssiTrans : ∀ a b c : Row, rssiLe a b → rssiLe b c → rssiLe a c :=
    fun _ _ _ h1 h2 => optIntLe_trans h2 h1
  have rssiTotal : ∀ a b : Row, rssiLe a b || rssiLe b a :=
    fun a b => optIntLe_total (parse_rssi b.wifi) (parse_rssi a.wifi)
  have ipTrans : ∀ a b c : Row, ipLe a b → ipLe b c → ipLe a c := by
    intro a b c h1 h2
    simp only [ipLe, decide_eq_true_eq] at h1 h2 ⊢
    exact le_trans h1 h2
  have ipTotal : ∀ a b : Row, ipLe a b || ipLe b a := by
    intro a b
    simp only [ipLe, Bool.or_eq_true, decide_eq_true_eq]
    exact le_total a.ip b.ip
  refine ⟨?_, ?_, ?_⟩
  · intro h
    simp only [sortTable] at h
    split at h
    · injection h with h'
      subst h'
      refine ⟨List.sorted_mergeSort uptTrans uptTotal rows, fun k => ?_,
        List.mergeSort_perm rows uptimeLe⟩
      refine mergeSort_filter_stable uptTrans uptTotal rows _ (fun a b ha hb => ?_)
      have ha' : uptimeKey a = k := by simpa using ha
      have hb' : uptimeKey b = k := by simpa using hb
      simp only [uptimeLe, ha', hb']
      exact optIntLe_refl k
    · cases h
  · intro h
    simp only [sortTable] at h
    injection h with h'
    subst h'
    refine ⟨List.sorted_mergeSort rssiTrans rssiTotal rows, fun k => ?_,
      List.mergeSort_perm rows rssiLe⟩
    refine mergeSort_filter_stable rssiTrans rssiTotal rows _ (fun a b ha hb => ?_)
    have ha' : parse_rssi a.wifi = k := by simpa using ha
    have hb' : parse_rssi b.wifi = k := by simpa using hb
    simp only [rssiLe, ha', hb']
    exact optIntLe_refl k
  · intro h
    simp only [sortTable] at h
    injection h with h'
    subst h'
    refine ⟨?_, List.mergeSort_perm rows ipLe⟩
    have hs := List.sorted_mergeSort ipTrans ipTotal rows
    exact hs.imp (fun hab => by simpa [ipLe] using hab)

/-- Witness for C6 on a concrete two-row table that is already in sorted
position for all three keys. -/
theorem C6_sort_logic_witness :
    ([defaultRow "a", defaultRow "a"] : List Row).Pairwise (fun a b => a.ip ≤ b.ip)
    ∧ ([defaultRow "a", defaultRow "a"] : List Row).Pairwise (fun a b => uptimeLe a b)
    ∧ ([defaultRow "a", defaultRow "a"] : List Row).Pairwise (fun a b => rssiLe a b) := by
  have hippair : List.Pairwise (fun a b : Row => ipLe a b = true)
      [defaultRow "a", defaultRow "a"] := by
    refine List.Pairwise.cons (fun b hb => ?_) (List.pairwise_singleton _ _)
    rcases List.mem_singleton.mp hb with rfl
    simp [ipLe]
  have hipok : sortTable SortKey.ip [defaultRow "a", defaultRow "a"]
      = Except.ok [defaultRow "a", defaultRow "a"] := by
    simp only [sortTable]
    rw [List.mergeSort_of_sorted hippair]
  have huptok : sortTable SortKey.uptime [defaultRow "a", defaultRow "a"]
      = Except.ok [defaultRow "a", defaultRow "a"] := by
    simp only [sortTable]
    rw [if_pos (by decide), List.mergeSort_of_sorted (by decide)]
  have hwifiok : sortTable SortKey.wifi [defaultRow "a", defaultRow "a"]
      = Except.ok [defaultRow "a", defaultRow "a"] := by
    simp only [sortTable]
    rw [List.mergeSort_of_sorted (by decide)]
  exact ⟨((C6_sort_logic _ _).2.2 hipok).1, ((C6_sort_logic _ _).1 huptok).1,
    ((C6_sort_logic _ _).2.1 hwifiok).1⟩

/-- Witness for C10 at uptime 90061 s = 1 day, 1 hour, 1 minute. -/
theorem C10_format_uptime_witness :
    format_uptime (JVal.num 90061) = "1d 1h 1m"
    ∧ (90061 : Int) % 86400 / 3600 < 24
    ∧ format_uptime (JVal.str "not a number") = "–" := by
  have h := C10_format_uptime (JVal.num 90061) 90061 rfl
  exact ⟨by rw [h.1]; rfl, (h.2.1 (by norm_num)).1, h.2.2 (JVal.str "not a number") rfl⟩
